import Mathlib

/-!
Verification of the Model event loop of a terminal fuzzy selector
(`src/model.rs`).  The development shallowly embeds the data model and the
operations of the Model: the preview-window spec parser, the status-line
percentage guard, and the body of `Model::start` as a step function over an
explicit state.  Rust strings are embedded as `List Char` where their
contents matter (the preview parser) and as `String` where only equality
matters (queries, commands).  The step function additionally emits a trace
of the side-effecting operations (kills, pool operations, worker launches)
it performs, in source order, so that ordering claims can be stated.
-/

namespace Skim

/-- Direction of the preview pane (tuikit `Direction`, used by model.rs). -/
inductive Direction
  | Up
  | Down
  | Left
  | Right
deriving DecidableEq, Repr

/-- Size of a pane (tuikit `Size`): a percentage or a fixed number of cells. -/
inductive Size
  | Percent (n : Nat)
  | Fixed (n : Nat)
deriving DecidableEq, Repr

/-- Decimal parse of a digit run, used to model Rust's `str::parse::<usize>`. -/
def charsToNat? (l : List Char) : Option Nat :=
  if l ≠ [] ∧ l.all Char.isDigit then
    some (l.foldl (fun n c => n * 10 + (c.toNat - 48)) 0)
  else none

/-- Modelled from the spec: `margin_string_to_size` lives in `util.rs`, which
is absent from the sources; per the spec a numeric token of the
preview-window spec is interpreted as a size, percent by default
(`"30"` and `"30%"` both denote 30 percent). -/
def margin_string_to_size (s : List Char) : Size :=
  if s.getLast? = some '%' then Size.Percent ((charsToNat? s.dropLast).getD 50)
  else Size.Percent ((charsToNat? s).getD 50)

/-- One iteration of the token loop of `Model::parse_preview`
(model.rs lines 148-170).  The accumulator is
(direction, shown, wrap, size), matching the four mutable locals. -/
def previewStep (acc : Direction × Bool × Bool × Size) (option : List Char) :
    Direction × Bool × Bool × Size :=
  match acc with
  | (direction, shown, wrap, size) =>
    if option = [] then (direction, shown, wrap, size)
    else
      let firstChar := option.headD 'A'
      if firstChar.isDigit then (direction, shown, wrap, margin_string_to_size option)
      else
        let upper := option.map Char.toUpper
        if upper = ['U', 'P'] then (Direction.Up, shown, wrap, size)
        else if upper = ['D', 'O', 'W', 'N'] then (Direction.Down, shown, wrap, size)
        else if upper = ['L', 'E', 'F', 'T'] then (Direction.Left, shown, wrap, size)
        else if upper = ['R', 'I', 'G', 'H', 'T'] then (Direction.Right, shown, wrap, size)
        else if upper = ['H', 'I', 'D', 'D', 'E', 'N'] then (direction, false, wrap, size)
        else if upper = ['W', 'R', 'A', 'P'] then (direction, shown, true, size)
        else (direction, shown, wrap, size)

/-- Translation of `Model::parse_preview` (model.rs lines 140-173):
split on ':', fold the token loop from the defaults, and return
`(direction, size, wrap, shown)`. -/
def parse_preview (previewOption : List Char) : Direction × Size × Bool × Bool :=
  let options := previewOption.splitOn ':'
  match options.foldl previewStep (Direction.Right, true, false, Size.Percent 50) with
  | (direction, shown, wrap, size) => (direction, size, wrap, shown)

/-- Classifier for direction tokens, mirroring the keyword cases of
`previewStep`; used to state the declarative characterization. -/
def dirToken (t : List Char) : Option Direction :=
  if t = [] then none
  else if (t.headD 'A').isDigit then none
  else if t.map Char.toUpper = ['U', 'P'] then some Direction.Up
  else if t.map Char.toUpper = ['D', 'O', 'W', 'N'] then some Direction.Down
  else if t.map Char.toUpper = ['L', 'E', 'F', 'T'] then some Direction.Left
  else if t.map Char.toUpper = ['R', 'I', 'G', 'H', 'T'] then some Direction.Right
  else none

/-- Classifier for size tokens (tokens whose first character is a digit). -/
def sizeToken (t : List Char) : Option Size :=
  if t = [] then none
  else if (t.headD 'A').isDigit then some (margin_string_to_size t)
  else none

/-- Does this token set the wrap flag? -/
def isWrapToken (t : List Char) : Bool :=
  if t = [] then false
  else if (t.headD 'A').isDigit then false
  else if t.map Char.toUpper = ['W', 'R', 'A', 'P'] then true
  else false

/-- Does this token hide the preview pane? -/
def isHiddenToken (t : List Char) : Bool :=
  if t = [] then false
  else if (t.headD 'A').isDigit then false
  else if t.map Char.toUpper = ['H', 'I', 'D', 'D', 'E', 'N'] then true
  else false

/-- The status-line state (`Status` struct of model.rs, data fields;
the theme handle is external and carries no data relevant here). -/
structure Status where
  total : Nat
  matched : Nat
  processed : Nat
  matcherRunning : Bool
  multiSelection : Bool
  selected : Nat
  currentItemIdx : Nat
  reading : Bool
  timeMillis : Nat
  matcherModeLabel : String
  inlineInfo : Bool
deriving DecidableEq, Repr

/-- Guard of the processed-percentage display in `Status::draw`
(model.rs line 498): `self.matcher_running && self.processed * 20 > self.total`. -/
def Status.percentGuard (st : Status) : Bool :=
  st.matcherRunning && decide (st.processed * 20 > st.total)

/-- The percentage printed under the guard (model.rs line 502):
`self.processed * 100 / self.total`. -/
def Status.percentShown (st : Status) : Nat :=
  st.processed * 100 / st.total

/-! ## The Model event loop -/

/-- Candidate items are embedded as their display text. -/
abbrev Item := String

/-- The matcher mode enumeration.  Modelled from the spec (`matcher.rs` is
absent from the sources): default (fuzzy) or regex.  model.rs stores the
mode as `Option<MatcherMode>`, with `None` denoting the default mode and
only `Some(Regex)` ever stored. -/
inductive MatcherMode
  | Fuzzy
  | Regex
deriving DecidableEq, Repr

/-- The three-way pending clear strategy (`ClearStrategy`, model.rs 528-533). -/
inductive ClearStrategy
  | DontClear
  | Clear
  | ClearIfNotNull
deriving DecidableEq, Repr

/-- Observable state of a matcher control handle (spec 4.3: `stopped()`,
`into_items()`, counters, `kill()`); `matcher.rs` is external. -/
structure MatcherControl where
  stopped : Bool
  matchedItems : List Item
  numMatched : Nat
  numProcessed : Nat
deriving DecidableEq, Repr

/-- Observable state of a reader control handle (spec 4.2: `is_processed()`,
`take()`, `kill()`); `reader.rs` is external. -/
structure ReaderControl where
  isProcessed : Bool
  stagedItems : List Item
deriving DecidableEq, Repr

/-- The item pool (spec section 3): growable item list plus takeable cursor. -/
structure ItemPool where
  items : List Item
  takenCursor : Nat
deriving DecidableEq, Repr

/-- `ItemPool::append`: extend the pool. -/
def ItemPool.append (p : ItemPool) (newItems : List Item) : ItemPool :=
  { p with items := p.items ++ newItems }

/-- `ItemPool::reset`: move the takeable cursor to 0 without dropping items. -/
def ItemPool.reset (p : ItemPool) : ItemPool :=
  { p with takenCursor := 0 }

/-- `ItemPool::clear`: drop all items and reset the cursor. -/
def ItemPool.clear (_p : ItemPool) : ItemPool :=
  { items := [], takenCursor := 0 }

/-- `ItemPool::len`. -/
def ItemPool.len (p : ItemPool) : Nat := p.items.length

/-- The Selection subcomponent (spec section 3): matched items plus the
chosen items; `selection.rs` is external, only `clear`,
`append_sorted_items` and `get_selected_items` are used by the Model. -/
structure Selection where
  matchedItems : List Item
  selectedItems : List Item
deriving DecidableEq, Repr

/-- `Selection::clear`: drops matches and selection, preserves configuration. -/
def Selection.clear (_s : Selection) : Selection :=
  { matchedItems := [], selectedItems := [] }

/-- `Selection::append_sorted_items`. -/
def Selection.appendSortedItems (s : Selection) (its : List Item) : Selection :=
  { s with matchedItems := s.matchedItems ++ its }

/-- `Selection::get_selected_items`. -/
def Selection.getSelectedItems (s : Selection) : List Item := s.selectedItems

/-- The Query subcomponent as observed by the Model: `get_query` (filter
query), `get_cmd` (reader command string), `get_cmd_query` (command query
text); `query.rs` is external. -/
structure Query where
  queryText : String
  cmdText : String
  cmdQueryText : String
deriving DecidableEq, Repr

/-- `Query::get_query`. -/
def Query.get_query (q : Query) : String := q.queryText

/-- `Query::get_cmd`. -/
def Query.get_cmd (q : Query) : String := q.cmdText

/-- `Query::get_cmd_query`. -/
def Query.get_cmd_query (q : Query) : String := q.cmdQueryText

/-- The events of model.rs that the Model's own `match` distinguishes; the
accept payload (`Option<String>` downcast) is carried in the constructor.
`other` stands for any event that only the subcomponents may consume. -/
inductive Event
  | evHeartBeat
  | evActAccept (acceptKey : Option String)
  | evActAbort
  | evActDeleteCharEOF
  | evActTogglePreview
  | evActRotateMode
  | other
deriving DecidableEq, Repr

/-- `SkimOutput` (the output record returned on accept). -/
structure SkimOutput where
  acceptKey : Option String
  query : String
  cmd : String
  selectedItems : List Item
deriving DecidableEq, Repr

/-- The Model state: subcomponents, pool, mode, the two worker control
handles, and the loop-local variables of `Model::start`
(`cmd`, `query`, `clear_selection`). -/
structure ModelState where
  query : Query
  selection : Selection
  itemPool : ItemPool
  matcherMode : Option MatcherMode
  readerControl : Option ReaderControl
  matcherControl : Option MatcherControl
  previewHidden : Bool
  cmd : String
  queryText : String
  clearStrategy : ClearStrategy
deriving DecidableEq, Repr

/-- Side-effecting operations performed by the Model, recorded in source
order so that ordering claims can be stated. -/
inductive Action
  | killReader
  | killMatcher
  | takeMatcherItems
  | setStrategy (st : ClearStrategy)
  | clearPool
  | resetPool
  | appendPool (its : List Item)
  | startReader (cmd : String)
  | startMatcher (q : String)
  | injectNullKey
deriving DecidableEq, Repr

/-- Behaviour of the external collaborators during one event: whether each
subcomponent consumes the event and the resulting subcomponent states, and
the control handles a `run` call would return. -/
structure Env where
  headerAccepts : Bool
  queryAccepts : Bool
  queryAfter : Query
  selectionAccepts : Bool
  selectionAfter : Selection
  freshReader : ReaderControl
  freshMatcher : MatcherControl
deriving DecidableEq, Repr

/-- `self.reader_control.take().map(|ctrl| ctrl.kill())`: drop the handle,
recording the kill when a handle was live. -/
def killReaderCtl (s : ModelState) : ModelState × List Action :=
  match s.readerControl with
  | some _ => ({ s with readerControl := none }, [Action.killReader])
  | none => (s, [])

/-- `self.matcher_control.take().map(|ctrl| ctrl.kill())`. -/
def killMatcherCtl (s : ModelState) : ModelState × List Action :=
  match s.matcherControl with
  | some _ => ({ s with matcherControl := none }, [Action.killMatcher])
  | none => (s, [])

/-- Kill reader then matcher, as done by the accept / abort / delete-at-EOF
branches (model.rs 227-228, 239-240, 247-248). -/
def killWorkers (s : ModelState) : ModelState × List Action :=
  let r1 := killReaderCtl s
  let r2 := killMatcherCtl r1.1
  (r2.1, r1.2 ++ r2.2)

/-- `self.reader_control.as_ref().map(|c| c.is_processed()).unwrap_or(true)`
(model.rs 215 and 336). -/
def readerProcessed (s : ModelState) : Bool :=
  (s.readerControl.map (fun c => c.isProcessed)).getD true

/-- `self.matcher_control.as_ref().map(|ctrl| ctrl.stopped()).unwrap_or(false)`
(model.rs 187-191). -/
def matcherStopped (s : ModelState) : Bool :=
  (s.matcherControl.map (fun c => c.stopped)).getD false

/-- `Model::restart_matcher` (model.rs 329-346): kill any existing matcher,
move new reader items into the pool when the reader is not yet processed,
and install a fresh matcher bound to the current filter query. -/
def restart_matcher (s : ModelState) (v : Env) : ModelState × List Action :=
  let q := s.query.get_query
  let k := killMatcherCtl s
  let p :=
    if readerProcessed k.1 then (k.1, ([] : List Action))
    else
      let newItems := (k.1.readerControl.map (fun c => c.stagedItems)).getD []
      ({ k.1 with
          readerControl := k.1.readerControl.map (fun c => { c with stagedItems := [] }),
          itemPool := k.1.itemPool.append newItems },
       [Action.appendPool newItems])
  ({ p.1 with matcherControl := some v.freshMatcher },
   k.2 ++ p.2 ++ [Action.startMatcher q])

/-- Absorption of a stopped matcher's output on a heartbeat
(model.rs 194-212): apply the pending clear strategy, then append the
sorted matches; returns the new Selection and the new strategy. -/
def absorbStep (strategy : ClearStrategy) (sel : Selection) (matched : List Item) :
    Selection × ClearStrategy :=
  match strategy with
  | ClearStrategy.DontClear =>
      (sel.appendSortedItems matched, ClearStrategy.DontClear)
  | ClearStrategy.Clear =>
      ((sel.clear).appendSortedItems matched, ClearStrategy.DontClear)
  | ClearStrategy.ClearIfNotNull =>
      if matched.length > 0 then
        ((sel.clear).appendSortedItems matched, ClearStrategy.DontClear)
      else
        (sel.appendSortedItems matched, ClearStrategy.ClearIfNotNull)

/-- The heartbeat branch (model.rs 185-220): absorb a stopped matcher's
output, then restart the matcher when the reader has unseen items and no
matcher is installed. -/
def heartBeatStep (s : ModelState) (v : Env) : ModelState × List Action :=
  let p :=
    match s.matcherControl with
    | some ctrl =>
        if ctrl.stopped then
          let ab := absorbStep s.clearStrategy s.selection ctrl.matchedItems
          ({ s with matcherControl := none, selection := ab.1, clearStrategy := ab.2 },
           [Action.takeMatcherItems])
        else (s, [])
    | none => (s, [])
  if !readerProcessed p.1 && p.1.matcherControl.isNone then
    let r := restart_matcher p.1 v
    (r.1, p.2 ++ r.2)
  else p

/-- The Query part of the dispatch section (model.rs 280-307): hand the
event to the Query subcomponent; on a command-query change kill both
workers, clear the pool, set `ClearIfNotNull`, restart reader then matcher;
on a filter-query change kill the matcher, set `Clear`, reset the pool
cursor, restart the matcher. -/
def queryDispatch (s : ModelState) (v : Env) : ModelState × List Action :=
  if v.queryAccepts then
    let sQ := { s with query := v.queryAfter }
    let newQuery := sQ.query.get_query
    let newCmd := sQ.query.get_cmd
    if newCmd ≠ sQ.cmd then
      let sA := { sQ with cmd := newCmd }
      let kr := killReaderCtl sA
      let km := killMatcherCtl kr.1
      let sD := { km.1 with
          itemPool := km.1.itemPool.clear,
          clearStrategy := ClearStrategy.ClearIfNotNull }
      let sE := { sD with readerControl := some v.freshReader }
      let rm := restart_matcher sE v
      (rm.1, kr.2 ++ km.2 ++ Action.clearPool ::
            Action.setStrategy ClearStrategy.ClearIfNotNull ::
            Action.startReader newCmd :: rm.2)
    else if sQ.queryText ≠ newQuery then
      let sA := { sQ with queryText := newQuery }
      let km := killMatcherCtl sA
      let sC := { km.1 with
          clearStrategy := ClearStrategy.Clear,
          itemPool := km.1.itemPool.reset }
      let rm := restart_matcher sC v
      (rm.1, km.2 ++ Action.setStrategy ClearStrategy.Clear ::
            Action.resetPool :: rm.2)
    else (sQ, [])
  else (s, [])

/-- The full dispatch section (model.rs 276-311): Header (no modelled
state), then Query, then Selection. -/
def dispatchEvents (s : ModelState) (v : Env) : ModelState × List Action :=
  let qd := queryDispatch s v
  (if v.selectionAccepts then { qd.1 with selection := v.selectionAfter } else qd.1, qd.2)

/-- Result of processing one event: continue the loop with a new state, or
return from `Model::start` with an output (`none` is the abort sentinel). -/
inductive StepResult
  | nextState (s : ModelState) (trace : List Action)
  | finished (out : Option SkimOutput) (trace : List Action)
deriving DecidableEq, Repr

/-- The trace of a step. -/
def StepResult.trace : StepResult → List Action
  | StepResult.nextState _ tr => tr
  | StepResult.finished _ tr => tr

/-- The continuation state of a step, when the loop continues. -/
def StepResult.stateOf : StepResult → Option ModelState
  | StepResult.nextState s _ => some s
  | StepResult.finished _ _ => none

/-- Liveness flags (reader handle live, matcher handle live) after a step:
both dead when `Model::start` returns, since every return path kills both. -/
def StepResult.finalFlags : StepResult → Bool × Bool
  | StepResult.nextState s _ => (s.readerControl.isSome, s.matcherControl.isSome)
  | StepResult.finished _ _ => (false, false)

/-- The mode rotation of `EvActRotateMode` (model.rs 258-262). -/
def rotateMode (m : Option MatcherMode) : Option MatcherMode :=
  if m.isNone then some MatcherMode.Regex else none

/-- The body of the `while let` loop of `Model::start` (model.rs 182-324)
for one received event: the Model's own `match`, followed by the dispatch
section (the terminal draw carries no modelled state). -/
def modelStep (s : ModelState) (ev : Event) (v : Env) : StepResult :=
  match ev with
  | Event.evHeartBeat =>
      let hb := heartBeatStep s v
      let d := dispatchEvents hb.1 v
      StepResult.nextState d.1 (hb.2 ++ d.2)
  | Event.evActAccept acceptKey =>
      let k := killWorkers s
      StepResult.finished
        (some { acceptKey := acceptKey,
                query := k.1.query.get_query,
                cmd := k.1.query.get_cmd_query,
                selectedItems := k.1.selection.getSelectedItems })
        k.2
  | Event.evActAbort =>
      let k := killWorkers s
      StepResult.finished none k.2
  | Event.evActDeleteCharEOF =>
      if s.queryText = "" then
        let k := killWorkers s
        StepResult.finished none (Action.injectNullKey :: k.2)
      else
        let d := dispatchEvents s v
        StepResult.nextState d.1 d.2
  | Event.evActTogglePreview =>
      let s1 := { s with previewHidden := !s.previewHidden }
      let d := dispatchEvents s1 v
      StepResult.nextState d.1 d.2
  | Event.evActRotateMode =>
      let km := killMatcherCtl { s with matcherMode := rotateMode s.matcherMode }
      let s2 := { km.1 with
          clearStrategy := ClearStrategy.Clear,
          itemPool := km.1.itemPool.reset }
      let rm := restart_matcher s2 v
      let d := dispatchEvents rm.1 v
      StepResult.nextState d.1
        (km.2 ++ Action.setStrategy ClearStrategy.Clear ::
         Action.resetPool :: rm.2 ++ d.2)
  | Event.other =>
      let d := dispatchEvents s v
      StepResult.nextState d.1 d.2

/-- Replay of a trace against a two-slot handle abstraction: starting a
worker into an occupied slot is a violation (`none`); kills and the
heartbeat take free the corresponding slot. -/
def replayHandles : Bool → Bool → List Action → Option (Bool × Bool)
  | r, m, [] => some (r, m)
  | r, m, Action.startReader _ :: rest =>
      if r then none else replayHandles true m rest
  | r, m, Action.startMatcher _ :: rest =>
      if m then none else replayHandles r true rest
  | _, m, Action.killReader :: rest => replayHandles false m rest
  | r, _, Action.killMatcher :: rest => replayHandles r false rest
  | r, _, Action.takeMatcherItems :: rest => replayHandles r false rest
  | r, m, Action.setStrategy _ :: rest => replayHandles r m rest
  | r, m, Action.clearPool :: rest => replayHandles r m rest
  | r, m, Action.resetPool :: rest => replayHandles r m rest
  | r, m, Action.appendPool _ :: rest => replayHandles r m rest
  | r, m, Action.injectNullKey :: rest => replayHandles r m rest

/-! ## Concrete states for witnesses and counterexamples -/

/-- A small concrete Query component state. -/
def q0 : Query := { queryText := "", cmdText := "find .", cmdQueryText := "" }

/-- Query state after typing a filter query (same command). -/
def q1 : Query := { queryText := "abc", cmdText := "find .", cmdQueryText := "" }

/-- Query state after a command-query change. -/
def qCmd : Query := { queryText := "abc", cmdText := "rg files", cmdQueryText := "files" }

/-- A small concrete Selection. -/
def sel0 : Selection := { matchedItems := ["alpha"], selectedItems := ["alpha"] }

/-- A small concrete ItemPool. -/
def pool0 : ItemPool := { items := ["alpha", "beta"], takenCursor := 1 }

/-- A reader handle that has finished producing. -/
def reader0 : ReaderControl := { isProcessed := true, stagedItems := [] }

/-- A stopped matcher handle with a non-empty batch. -/
def mctrl0 : MatcherControl :=
  { stopped := true, matchedItems := ["beta"], numMatched := 1, numProcessed := 2 }

/-- A stopped matcher handle with an empty batch. -/
def mctrlEmpty : MatcherControl :=
  { stopped := true, matchedItems := [], numMatched := 0, numProcessed := 2 }

/-- A freshly launched (still running) matcher handle. -/
def mfresh0 : MatcherControl :=
  { stopped := false, matchedItems := [], numMatched := 0, numProcessed := 0 }

/-- Environment in which no subcomponent consumes the event. -/
def env0 : Env :=
  { headerAccepts := false, queryAccepts := false, queryAfter := q0,
    selectionAccepts := false, selectionAfter := sel0,
    freshReader := reader0, freshMatcher := mfresh0 }

/-- Environment in which the Query consumes the event and the command query
changes. -/
def envCmd : Env := { env0 with queryAccepts := true, queryAfter := qCmd }

/-- Environment in which the Query consumes the event and only the filter
query changes. -/
def envQuery : Env := { env0 with queryAccepts := true, queryAfter := q1 }

/-- A base Model state with both workers live and a stopped matcher. -/
def state0 : ModelState :=
  { query := q0, selection := sel0, itemPool := pool0, matcherMode := none,
    readerControl := some reader0, matcherControl := some mctrl0,
    previewHidden := true, cmd := "find .", queryText := "",
    clearStrategy := ClearStrategy.DontClear }

/-- State with a pending `ClearIfNotNull` and a stopped matcher whose batch
is empty. -/
def stateC1 : ModelState :=
  { state0 with matcherControl := some mctrlEmpty,
                clearStrategy := ClearStrategy.ClearIfNotNull }

/-- State whose loop-local filter query is non-empty. -/
def stateQ : ModelState := { state0 with queryText := "abc", query := q1 }

/-- A concrete status-line state. -/
def status0 : Status :=
  { total := 2, matched := 1, processed := 1, matcherRunning := true,
    multiSelection := false, selected := 0, currentItemIdx := 0,
    reading := false, timeMillis := 0, matcherModeLabel := "", inlineInfo := false }

/-! ## Infrastructure lemmas -/

theorem replayHandles_append (t1 : List Action) (r m : Bool) (t2 : List Action) :
    replayHandles r m (t1 ++ t2) =
      (replayHandles r m t1).bind (fun p => replayHandles p.1 p.2 t2) := by
  induction t1 generalizing r m with
  | nil => simp [replayHandles]
  | cons a rest ih =>
    cases a <;> simp only [List.cons_append, replayHandles] <;>
      first
        | exact ih _ _
        | (split <;> simp [ih])

theorem killReaderCtl_eq (s : ModelState) :
    killReaderCtl s = ({ s with readerControl := none },
      if s.readerControl.isSome then [Action.killReader] else []) := by
  rcases s with ⟨q, sel, pool, mode, rc, mc, ph, c, qt, cs⟩
  cases rc <;> rfl

theorem killMatcherCtl_eq (s : ModelState) :
    killMatcherCtl s = ({ s with matcherControl := none },
      if s.matcherControl.isSome then [Action.killMatcher] else []) := by
  rcases s with ⟨q, sel, pool, mode, rc, mc, ph, c, qt, cs⟩
  cases mc <;> rfl

theorem restart_matcher_eq (s : ModelState) (v : Env) :
    restart_matcher s v =
      (if readerProcessed s then
        ({ s with matcherControl := some v.freshMatcher },
         (if s.matcherControl.isSome then [Action.killMatcher] else []) ++
           [Action.startMatcher s.query.get_query])
       else
        ({ s with matcherControl := some v.freshMatcher,
                  readerControl := s.readerControl.map (fun c => { c with stagedItems := [] }),
                  itemPool := s.itemPool.append
                    ((s.readerControl.map (fun c => c.stagedItems)).getD []) },
         (if s.matcherControl.isSome then [Action.killMatcher] else []) ++
           Action.appendPool ((s.readerControl.map (fun c => c.stagedItems)).getD []) ::
           [Action.startMatcher s.query.get_query])) := by
  rcases s with ⟨q, sel, pool, mode, rc, mc, ph, c, qt, cs⟩
  cases mc <;> cases rc <;>
    simp [restart_matcher, killMatcherCtl, readerProcessed, Query.get_query] <;>
    split <;> simp

theorem killWorkers_eq (s : ModelState) :
    killWorkers s = ({ s with readerControl := none, matcherControl := none },
      (if s.readerControl.isSome then [Action.killReader] else []) ++
      (if s.matcherControl.isSome then [Action.killMatcher] else [])) := by
  rcases s with ⟨q, sel, pool, mode, rc, mc, ph, c, qt, cs⟩
  cases rc <;> cases mc <;> rfl

theorem restart_matcher_replay (s : ModelState) (v : Env) :
    replayHandles s.readerControl.isSome s.matcherControl.isSome (restart_matcher s v).2 =
      some ((restart_matcher s v).1.readerControl.isSome,
            (restart_matcher s v).1.matcherControl.isSome) := by
  rw [restart_matcher_eq]
  rcases s with ⟨q, sel, pool, mode, rc, mc, ph, c, qt, cs⟩
  cases rc <;> cases mc <;> split <;>
    simp [replayHandles_append, replayHandles]

theorem queryDispatch_replay (s : ModelState) (v : Env) :
    replayHandles s.readerControl.isSome s.matcherControl.isSome (queryDispatch s v).2 =
      some ((queryDispatch s v).1.readerControl.isSome,
            (queryDispatch s v).1.matcherControl.isSome) := by
  rcases s with ⟨q, sel, pool, mode, rc, mc, ph, c, qt, cs⟩
  simp only [queryDispatch]
  split
  · split
    · rw [killReaderCtl_eq, killMatcherCtl_eq, restart_matcher_eq]
      by_cases hp : v.freshReader.isProcessed = true <;>
        cases rc <;> cases mc <;>
        simp [readerProcessed, hp, replayHandles_append, replayHandles]
    · split
      · rw [killMatcherCtl_eq, restart_matcher_eq]
        rcases rc with _ | rdr
        · cases mc <;> simp [readerProcessed, replayHandles_append, replayHandles]
        · by_cases hp : rdr.isProcessed = true <;> cases mc <;>
            simp [readerProcessed, hp, replayHandles_append, replayHandles]
      · simp [replayHandles]
  · simp [replayHandles]

theorem dispatchEvents_replay (s : ModelState) (v : Env) :
    replayHandles s.readerControl.isSome s.matcherControl.isSome (dispatchEvents s v).2 =
      some ((dispatchEvents s v).1.readerControl.isSome,
            (dispatchEvents s v).1.matcherControl.isSome) := by
  have h := queryDispatch_replay s v
  simp only [dispatchEvents]
  rcases hqd : queryDispatch s v with ⟨s1, t1⟩
  rw [hqd] at h
  split <;> simp_all

theorem killWorkers_replay (s : ModelState) :
    replayHandles s.readerControl.isSome s.matcherControl.isSome (killWorkers s).2 =
      some (false, false) := by
  rw [killWorkers_eq]
  rcases s with ⟨q, sel, pool, mode, rc, mc, ph, c, qt, cs⟩
  cases rc <;> cases mc <;> simp [replayHandles]

theorem heartBeatStep_replay (s : ModelState) (v : Env) :
    replayHandles s.readerControl.isSome s.matcherControl.isSome (heartBeatStep s v).2 =
      some ((heartBeatStep s v).1.readerControl.isSome,
            (heartBeatStep s v).1.matcherControl.isSome) := by
  rcases s with ⟨q, sel, pool, mode, rc, mc, ph, c, qt, cs⟩
  cases mc with
  | none =>
    have h := restart_matcher_replay ⟨q, sel, pool, mode, rc, none, ph, c, qt, cs⟩ v
    simp at h
    simp only [heartBeatStep]
    split
    · simp [replayHandles, h]
    · simp [replayHandles]
  | some ctrl =>
    by_cases hst : ctrl.stopped = true
    · have h := restart_matcher_replay
        ⟨q, (absorbStep cs sel ctrl.matchedItems).1, pool, mode, rc, none, ph, c, qt,
          (absorbStep cs sel ctrl.matchedItems).2⟩ v
      simp at h
      simp only [heartBeatStep, hst, if_true]
      split
      · simp [replayHandles, h]
      · simp [replayHandles]
    · simp only [heartBeatStep, hst]
      simp [replayHandles]

theorem restart_matcher_matcherMode (s : ModelState) (v : Env) :
    (restart_matcher s v).1.matcherMode = s.matcherMode := by
  rw [restart_matcher_eq]
  split <;> simp

theorem restart_matcher_query_frame (s : ModelState) (v : Env) :
    (restart_matcher s v).1.query = s.query := by
  rw [restart_matcher_eq]
  split <;> simp

theorem restart_matcher_clearStrategy (s : ModelState) (v : Env) :
    (restart_matcher s v).1.clearStrategy = s.clearStrategy := by
  rw [restart_matcher_eq]
  split <;> simp

theorem restart_matcher_selection (s : ModelState) (v : Env) :
    (restart_matcher s v).1.selection = s.selection := by
  rw [restart_matcher_eq]
  split <;> simp

theorem restart_matcher_matcherControl (s : ModelState) (v : Env) :
    (restart_matcher s v).1.matcherControl = some v.freshMatcher := by
  rw [restart_matcher_eq]
  split <;> simp

theorem queryDispatch_matcherMode (s : ModelState) (v : Env) :
    (queryDispatch s v).1.matcherMode = s.matcherMode := by
  simp only [queryDispatch, killReaderCtl_eq, killMatcherCtl_eq, restart_matcher_eq]
  repeat' split
  all_goals simp

theorem dispatchEvents_matcherMode (s : ModelState) (v : Env) :
    (dispatchEvents s v).1.matcherMode = s.matcherMode := by
  simp only [dispatchEvents]
  split <;> simp [queryDispatch_matcherMode]

theorem queryDispatch_query (s : ModelState) (v : Env) :
    (queryDispatch s v).1.query = if v.queryAccepts then v.queryAfter else s.query := by
  simp only [queryDispatch, killReaderCtl_eq, killMatcherCtl_eq, restart_matcher_eq]
  repeat' split
  all_goals simp_all

theorem dispatchEvents_query (s : ModelState) (v : Env) :
    (dispatchEvents s v).1.query = if v.queryAccepts then v.queryAfter else s.query := by
  simp only [dispatchEvents]
  split <;> simp [queryDispatch_query]

theorem dispatchEvents_noaccept (s : ModelState) (v : Env)
    (hq : v.queryAccepts = false) (hsel : v.selectionAccepts = false) :
    dispatchEvents s v = (s, []) := by
  simp [dispatchEvents, queryDispatch, hq, hsel]

/-- C4: at every quiescent point at most one Reader and at most one Matcher
control handle are live, and every replacement of a handle kills (or, for a
stopped matcher being absorbed, takes) the old handle before installing the
new one: replaying the trace of any step of the event loop against the
two-slot handle abstraction never installs into an occupied slot, and ends
exactly in the liveness flags of the resulting state (both dead on return). -/
theorem claim4_handle_discipline (s : ModelState) (ev : Event) (v : Env) :
    replayHandles s.readerControl.isSome s.matcherControl.isSome (modelStep s ev v).trace =
      some (modelStep s ev v).finalFlags := by
  cases ev with
  | evHeartBeat =>
    simp [modelStep, StepResult.trace, StepResult.finalFlags, replayHandles_append,
      heartBeatStep_replay, dispatchEvents_replay]
  | evActAccept key =>
    simp [modelStep, StepResult.trace, StepResult.finalFlags, killWorkers_replay]
  | evActAbort =>
    simp [modelStep, StepResult.trace, StepResult.finalFlags, killWorkers_replay]
  | evActDeleteCharEOF =>
    by_cases hq : s.queryText = ""
    · simp [modelStep, hq, StepResult.trace, StepResult.finalFlags, replayHandles,
        killWorkers_replay]
    · simp [modelStep, hq, StepResult.trace, StepResult.finalFlags, dispatchEvents_replay]
  | evActTogglePreview =>
    have h := dispatchEvents_replay { s with previewHidden := !s.previewHidden } v
    simpa [modelStep, StepResult.trace, StepResult.finalFlags] using h
  | evActRotateMode =>
    rcases s with ⟨q, sel, pool, mode, rc, mc, ph, c, qt, cs⟩
    have h := restart_matcher_replay
      ⟨q, sel, pool.reset, rotateMode mode, rc, none, ph, c, qt, ClearStrategy.Clear⟩ v
    simp at h
    cases mc <;>
      simp [modelStep, killMatcherCtl, StepResult.trace, StepResult.finalFlags,
        replayHandles_append, replayHandles, h, dispatchEvents_replay]
  | other =>
    simp [modelStep, StepResult.trace, StepResult.finalFlags, dispatchEvents_replay]

/-- C7: on an accept event the Model kills the reader and matcher handles
(each kill recorded exactly when a handle is live, reader first) and
returns an output record carrying the accept-key label of the event
payload, the current filter query, the current command query, and the
currently selected items of the Selection. -/
theorem claim7_accept_output (s : ModelState) (v : Env) (acceptKey : Option String) :
    modelStep s (Event.evActAccept acceptKey) v =
      StepResult.finished
        (some { acceptKey := acceptKey,
                query := s.query.get_query,
                cmd := s.query.get_cmd_query,
                selectedItems := s.selection.getSelectedItems })
        ((if s.readerControl.isSome then [Action.killReader] else []) ++
         (if s.matcherControl.isSome then [Action.killMatcher] else [])) := by
  simp [modelStep, killWorkers_eq]

/-- C6: on a delete-char-at-EOF event with an empty filter query the Model
injects the synthetic terminal null-key, kills the reader and matcher
handles and returns the abort sentinel (no output record); with a
non-empty filter query the event falls through to the Query subcomponent
and the loop continues. -/
theorem claim6_delete_char_eof (s : ModelState) (v : Env) :
    (s.queryText = "" →
        modelStep s Event.evActDeleteCharEOF v =
          StepResult.finished none
            (Action.injectNullKey ::
              ((if s.readerControl.isSome then [Action.killReader] else []) ++
               (if s.matcherControl.isSome then [Action.killMatcher] else [])))) ∧
    (s.queryText ≠ "" →
        ∃ s2 t2, modelStep s Event.evActDeleteCharEOF v = StepResult.nextState s2 t2 ∧
          (v.queryAccepts = true → s2.query = v.queryAfter)) := by
  constructor
  · intro hq
    simp [modelStep, hq, killWorkers_eq]
  · intro hq
    refine ⟨(dispatchEvents s v).1, (dispatchEvents s v).2, ?_, ?_⟩
    · simp [modelStep, hq]
    · intro hacc
      simpa [hacc] using dispatchEvents_query s v

/-- Witness for C6 at concrete inputs: the empty-query state aborts with
the null-key injection and both kills; the non-empty-query state
continues. -/
theorem claim6_witness :
    (modelStep state0 Event.evActDeleteCharEOF env0 =
      StepResult.finished none
        (Action.injectNullKey :: [Action.killReader, Action.killMatcher])) ∧
    (∃ s2 t2, modelStep stateQ Event.evActDeleteCharEOF env0 = StepResult.nextState s2 t2 ∧
      (env0.queryAccepts = true → s2.query = env0.queryAfter)) := by
  constructor
  · have h := (claim6_delete_char_eof state0 env0).1 (by decide)
    simpa using h
  · exact (claim6_delete_char_eof stateQ env0).2 (by decide)

/-- C10: in the status-line draw, whenever the matcher's processed counter
does not exceed the pool total, the percentage guard
(`matcher_running && processed * 20 > total`) implies the total is at
least 1, so `processed * 100 / total` never divides by zero. -/
theorem claim10_percent_guard (st : Status)
    (hpt : st.processed ≤ st.total) (hg : st.percentGuard = true) :
    1 ≤ st.total := by
  simp [Status.percentGuard] at hg
  omega

/-- Witness for C10 at a concrete status state. -/
theorem claim10_witness :
    status0.processed ≤ status0.total ∧ status0.percentGuard = true ∧
      1 ≤ status0.total :=
  ⟨by decide, by decide, claim10_percent_guard status0 (by decide) (by decide)⟩

/-- C2: on a heartbeat (with no subcomponent consuming the event), if a
matcher handle is installed and stopped, its output is absorbed through the
pending clear strategy and appended to the Selection and the handle is
dropped (a handle is installed afterwards exactly when the reader has
unseen items, in which case it is the fresh restart); and a fresh matcher
is started (a `startMatcher` operation is performed) if and only if the
reader has produced items not yet seen and no matcher handle is installed
after the absorption. -/
theorem claim2_heartbeat (s : ModelState) (v : Env)
    (hq : v.queryAccepts = false) (hsel : v.selectionAccepts = false) :
    ∃ s2 tr, modelStep s Event.evHeartBeat v = StepResult.nextState s2 tr ∧
      (∀ c, s.matcherControl = some c → c.stopped = true →
        s2.selection = (absorbStep s.clearStrategy s.selection c.matchedItems).1 ∧
        s2.matcherControl.isSome = !readerProcessed s) ∧
      ((Action.startMatcher s.query.get_query ∈ tr) ↔
        (readerProcessed s = false ∧
          (s.matcherControl = none ∨ matcherStopped s = true))) := by
  have hd : ∀ x : ModelState, dispatchEvents x v = (x, []) :=
    fun x => dispatchEvents_noaccept x v hq hsel
  rcases s with ⟨q, sel, pool, mode, rc, mc, ph, c, qt, cs⟩
  cases mc with
  | none =>
    simp only [modelStep, heartBeatStep, hd]
    split
    · rename_i hg
      simp only [readerProcessed] at hg
      simp at hg
      refine ⟨_, _, rfl, fun cc hcc => absurd hcc (by simp), ?_⟩
      rw [restart_matcher_eq]
      simp [readerProcessed, matcherStopped, hg]
    · rename_i hg
      simp only [readerProcessed] at hg
      simp at hg
      refine ⟨_, _, rfl, fun cc hcc => absurd hcc (by simp), ?_⟩
      simp [readerProcessed, matcherStopped, hg]
  | some ctrl =>
    by_cases hst : ctrl.stopped = true
    · simp only [modelStep, heartBeatStep, hd]
      rw [if_pos hst]
      split
      · rename_i hg
        simp only [readerProcessed] at hg
        simp at hg
        refine ⟨_, _, rfl, ?_, ?_⟩
        · intro cc hcc hcs
          obtain rfl : ctrl = cc := by simpa using hcc
          constructor
          · rw [restart_matcher_selection]
          · rw [restart_matcher_matcherControl]
            simp [readerProcessed, hg]
        · rw [restart_matcher_eq]
          simp [readerProcessed, matcherStopped, hst, hg]
      · rename_i hg
        simp only [readerProcessed] at hg
        simp at hg
        refine ⟨_, _, rfl, ?_, ?_⟩
        · intro cc hcc hcs
          obtain rfl : ctrl = cc := by simpa using hcc
          simp [readerProcessed, hg]
        · simp [readerProcessed, matcherStopped, hst, hg]
    · simp only [modelStep, heartBeatStep, hd]
      rw [if_neg hst]
      simp only [Option.isNone_some, Bool.and_false, Bool.false_eq_true, if_false]
      refine ⟨_, _, rfl, ?_, ?_⟩
      · intro cc hcc hcs
        obtain rfl : ctrl = cc := by simpa using hcc
        exact absurd hcs hst
      · simp [matcherStopped, hst]

/-- Witness for C2 at a concrete state: both workers live, matcher
stopped, reader already processed. -/
theorem claim2_witness :
    ∃ s2 tr, modelStep state0 Event.evHeartBeat env0 = StepResult.nextState s2 tr ∧
      (∀ c, state0.matcherControl = some c → c.stopped = true →
        s2.selection = (absorbStep state0.clearStrategy state0.selection c.matchedItems).1 ∧
        s2.matcherControl.isSome = !readerProcessed state0) ∧
      ((Action.startMatcher state0.query.get_query ∈ tr) ↔
        (readerProcessed state0 = false ∧
          (state0.matcherControl = none ∨ matcherStopped state0 = true))) :=
  claim2_heartbeat state0 env0 (by decide) (by decide)

/-- C1 counterexample: at a state whose pending strategy is
`ClearIfNotNull` and whose stopped matcher delivers an empty batch, the
strategy after the absorbing heartbeat is still `ClearIfNotNull`, not
`DontClear` as the claim asserts. -/
theorem claim1_counterexample :
    matcherStopped stateC1 = true ∧
    (StepResult.stateOf (modelStep stateC1 Event.evHeartBeat env0)).map
        (fun s => s.clearStrategy) = some ClearStrategy.ClearIfNotNull ∧
    ClearStrategy.ClearIfNotNull ≠ ClearStrategy.DontClear :=
  ⟨by decide, by decide, by decide⟩

/-- C1 (amended): when a stopped matcher's output is absorbed on a
heartbeat, the pending clear strategy is applied (`DontClear` appends,
`Clear` drops previous matches before appending, `ClearIfNotNull` drops
previous matches iff the batch is non-empty), and after the absorption the
strategy is `DontClear` again — except that when the strategy was
`ClearIfNotNull` and the absorbed batch was empty it remains
`ClearIfNotNull`. -/
theorem claim1_amended (s : ModelState) (v : Env) (c : MatcherControl)
    (hq : v.queryAccepts = false) (hsel : v.selectionAccepts = false)
    (hm : s.matcherControl = some c) (hstop : c.stopped = true) :
    ∃ s2 tr, modelStep s Event.evHeartBeat v = StepResult.nextState s2 tr ∧
      s2.selection = (absorbStep s.clearStrategy s.selection c.matchedItems).1 ∧
      s2.clearStrategy = (absorbStep s.clearStrategy s.selection c.matchedItems).2 ∧
      ((absorbStep s.clearStrategy s.selection c.matchedItems).2 = ClearStrategy.DontClear ↔
        ¬(s.clearStrategy = ClearStrategy.ClearIfNotNull ∧ c.matchedItems = [])) := by
  have hd : ∀ x : ModelState, dispatchEvents x v = (x, []) :=
    fun x => dispatchEvents_noaccept x v hq hsel
  rcases s with ⟨q, sel, pool, mode, rc, mc, ph, c0, qt, cs⟩
  simp only at hm
  subst hm
  have hiff : (absorbStep cs sel c.matchedItems).2 = ClearStrategy.DontClear ↔
      ¬(cs = ClearStrategy.ClearIfNotNull ∧ c.matchedItems = []) := by
    rcases cs <;> rcases c.matchedItems <;> simp [absorbStep]
  simp only [modelStep, heartBeatStep, hd]
  rw [if_pos hstop]
  split
  · refine ⟨_, _, rfl, ?_, ?_, hiff⟩
    · rw [restart_matcher_selection]
    · rw [restart_matcher_clearStrategy]
  · exact ⟨_, _, rfl, by simp, by simp, hiff⟩

/-- Witness for C1 (amended) at a concrete stopped-matcher state. -/
theorem claim1_witness :
    ∃ s2 tr, modelStep state0 Event.evHeartBeat env0 = StepResult.nextState s2 tr ∧
      s2.selection = (absorbStep state0.clearStrategy state0.selection mctrl0.matchedItems).1 ∧
      s2.clearStrategy = (absorbStep state0.clearStrategy state0.selection mctrl0.matchedItems).2 ∧
      ((absorbStep state0.clearStrategy state0.selection mctrl0.matchedItems).2 =
          ClearStrategy.DontClear ↔
        ¬(state0.clearStrategy = ClearStrategy.ClearIfNotNull ∧ mctrl0.matchedItems = [])) :=
  claim1_amended state0 env0 mctrl0 (by decide) (by decide) (by decide) (by decide)

/-- C3: when the Query subcomponent reports a command-query change (both
worker handles being live and the fresh reader not yet unprocessed), the
dispatch performs exactly, in this order: kill reader, kill matcher, clear
the pool, set the strategy to `ClearIfNotNull`, start the reader under the
new command, start the matcher — so both old workers are killed before the
new reader is launched and the pool is cleared before the new reader can
append; afterwards the fresh handles are installed, the pool is empty and
the pending strategy is `ClearIfNotNull`. -/
theorem claim3_cmd_change (s : ModelState) (v : Env)
    (hacc : v.queryAccepts = true)
    (hcmd : v.queryAfter.get_cmd ≠ s.cmd)
    (hr : s.readerControl.isSome = true)
    (hm : s.matcherControl.isSome = true)
    (hfresh : v.freshReader.isProcessed = true) :
    (dispatchEvents s v).2 =
      [Action.killReader, Action.killMatcher, Action.clearPool,
       Action.setStrategy ClearStrategy.ClearIfNotNull,
       Action.startReader v.queryAfter.get_cmd,
       Action.startMatcher v.queryAfter.get_query] ∧
    (dispatchEvents s v).1.readerControl = some v.freshReader ∧
    (dispatchEvents s v).1.matcherControl = some v.freshMatcher ∧
    (dispatchEvents s v).1.itemPool.items = [] ∧
    (dispatchEvents s v).1.clearStrategy = ClearStrategy.ClearIfNotNull := by
  rcases s with ⟨q, sel, pool, mode, rc, mc, ph, c, qt, cs⟩
  simp only at hcmd hr hm
  rcases rc with _ | rdr
  · simp at hr
  rcases mc with _ | mctl
  · simp at hm
  simp only [dispatchEvents, queryDispatch, hacc, if_true]
  split
  · cases hsa : v.selectionAccepts <;>
      simp [killReaderCtl, killMatcherCtl, restart_matcher, readerProcessed, hfresh,
        ItemPool.clear, Query.get_query, Query.get_cmd]
  · rename_i h
    exact absurd hcmd (by simpa using h)

/-- Witness for C3 at a concrete state and environment. -/
theorem claim3_witness :
    (dispatchEvents state0 envCmd).2 =
      [Action.killReader, Action.killMatcher, Action.clearPool,
       Action.setStrategy ClearStrategy.ClearIfNotNull,
       Action.startReader envCmd.queryAfter.get_cmd,
       Action.startMatcher envCmd.queryAfter.get_query] ∧
    (dispatchEvents state0 envCmd).1.readerControl = some envCmd.freshReader ∧
    (dispatchEvents state0 envCmd).1.matcherControl = some envCmd.freshMatcher ∧
    (dispatchEvents state0 envCmd).1.itemPool.items = [] ∧
    (dispatchEvents state0 envCmd).1.clearStrategy = ClearStrategy.ClearIfNotNull :=
  claim3_cmd_change state0 envCmd (by decide) (by decide) (by decide) (by decide) (by decide)

/-- C5: when the Query subcomponent reports a filter-query change with the
command query unchanged (matcher live, reader already processed), the
dispatch performs exactly: kill matcher, set the strategy to `Clear`,
reset the pool cursor, start the matcher — the reader handle is left
unchanged (no reader kill or start), the pool items are untouched and only
the cursor is reset to 0. -/
theorem claim5_query_change (s : ModelState) (v : Env)
    (hacc : v.queryAccepts = true)
    (hcmd : v.queryAfter.get_cmd = s.cmd)
    (hqch : v.queryAfter.get_query ≠ s.queryText)
    (hm : s.matcherControl.isSome = true)
    (hp : readerProcessed s = true) :
    (dispatchEvents s v).2 =
      [Action.killMatcher, Action.setStrategy ClearStrategy.Clear, Action.resetPool,
       Action.startMatcher v.queryAfter.get_query] ∧
    (dispatchEvents s v).1.readerControl = s.readerControl ∧
    (dispatchEvents s v).1.itemPool.items = s.itemPool.items ∧
    (dispatchEvents s v).1.itemPool.takenCursor = 0 ∧
    (dispatchEvents s v).1.clearStrategy = ClearStrategy.Clear := by
  rcases s with ⟨q, sel, pool, mode, rc, mc, ph, c, qt, cs⟩
  simp only at hcmd hqch hm hp
  rcases mc with _ | mctl
  · simp at hm
  simp only [dispatchEvents, queryDispatch, hacc, if_true]
  split
  · rename_i h
    exact absurd (by simpa using hcmd) h
  · split
    · cases hsa : v.selectionAccepts <;>
        simp [killMatcherCtl, restart_matcher, readerProcessed, ItemPool.reset,
          Query.get_query, Query.get_cmd, readerProcessed] <;>
        simp [readerProcessed] at hp <;> simp [hp]
    · rename_i h1 h2
      exact absurd (Ne.symm hqch) (by simpa using h2)

/-- Witness for C5 at a concrete state and environment. -/
theorem claim5_witness :
    (dispatchEvents state0 envQuery).2 =
      [Action.killMatcher, Action.setStrategy ClearStrategy.Clear, Action.resetPool,
       Action.startMatcher envQuery.queryAfter.get_query] ∧
    (dispatchEvents state0 envQuery).1.readerControl = state0.readerControl ∧
    (dispatchEvents state0 envQuery).1.itemPool.items = state0.itemPool.items ∧
    (dispatchEvents state0 envQuery).1.itemPool.takenCursor = 0 ∧
    (dispatchEvents state0 envQuery).1.clearStrategy = ClearStrategy.Clear :=
  claim5_query_change state0 envQuery (by decide) (by decide) (by decide) (by decide)
    (by decide)

theorem rotate_step_spec (s : ModelState) (v : Env) :
    ∃ s1 rest,
      modelStep s Event.evActRotateMode v =
        StepResult.nextState s1
          ((if s.matcherControl.isSome then [Action.killMatcher] else []) ++
            Action.setStrategy ClearStrategy.Clear :: Action.resetPool :: rest) ∧
      s1.matcherMode = rotateMode s.matcherMode ∧
      Action.startMatcher s.query.get_query ∈ rest := by
  rcases s with ⟨q, sel, pool, mode, rc, mc, ph, c, qt, cs⟩
  cases mc <;> simp only [modelStep, killMatcherCtl, Option.isSome_some, Option.isSome_none,
    Bool.false_eq_true, if_false, if_true, List.nil_append, List.cons_append]
  · refine ⟨_, _, rfl, ?_, ?_⟩
    · simp [dispatchEvents_matcherMode, restart_matcher_matcherMode]
    · rw [restart_matcher_eq]
      split <;> simp [Query.get_query]
  · refine ⟨_, _, rfl, ?_, ?_⟩
    · simp [dispatchEvents_matcherMode, restart_matcher_matcherMode]
    · rw [restart_matcher_eq]
      split <;> simp [Query.get_query]

/-- C8: rotating the matcher mode twice returns it to its initial value
(the reachable modes being default = `none` and regex = `some Regex`), and
each rotation kills the running matcher (when one is live), sets the clear
strategy to `Clear`, resets the pool cursor and restarts the matcher, in
that order. -/
theorem claim8_rotate (s : ModelState) (v1 v2 : Env)
    (hmode : s.matcherMode = none ∨ s.matcherMode = some MatcherMode.Regex) :
    ∃ s1 tr1 s2 tr2,
      modelStep s Event.evActRotateMode v1 = StepResult.nextState s1 tr1 ∧
      modelStep s1 Event.evActRotateMode v2 = StepResult.nextState s2 tr2 ∧
      s2.matcherMode = s.matcherMode ∧
      (∃ rest1, tr1 = (if s.matcherControl.isSome then [Action.killMatcher] else []) ++
          Action.setStrategy ClearStrategy.Clear :: Action.resetPool :: rest1 ∧
          Action.startMatcher s.query.get_query ∈ rest1) ∧
      (∃ rest2, tr2 = (if s1.matcherControl.isSome then [Action.killMatcher] else []) ++
          Action.setStrategy ClearStrategy.Clear :: Action.resetPool :: rest2 ∧
          Action.startMatcher s1.query.get_query ∈ rest2) := by
  obtain ⟨s1, rest1, h1, hm1, hmem1⟩ := rotate_step_spec s v1
  obtain ⟨s2, rest2, h2, hm2, hmem2⟩ := rotate_step_spec s1 v2
  refine ⟨s1, _, s2, _, h1, h2, ?_, ⟨rest1, rfl, hmem1⟩, ⟨rest2, rfl, hmem2⟩⟩
  rw [hm2, hm1]
  rcases hmode with h | h <;> rw [h] <;> rfl

/-- Witness for C8 at a concrete state (default mode, matcher live). -/
theorem claim8_witness :
    ∃ s1 tr1 s2 tr2,
      modelStep state0 Event.evActRotateMode env0 = StepResult.nextState s1 tr1 ∧
      modelStep s1 Event.evActRotateMode env0 = StepResult.nextState s2 tr2 ∧
      s2.matcherMode = state0.matcherMode ∧
      (∃ rest1, tr1 = (if state0.matcherControl.isSome then [Action.killMatcher] else []) ++
          Action.setStrategy ClearStrategy.Clear :: Action.resetPool :: rest1 ∧
          Action.startMatcher state0.query.get_query ∈ rest1) ∧
      (∃ rest2, tr2 = (if s1.matcherControl.isSome then [Action.killMatcher] else []) ++
          Action.setStrategy ClearStrategy.Clear :: Action.resetPool :: rest2 ∧
          Action.startMatcher s1.query.get_query ∈ rest2) :=
  claim8_rotate state0 env0 env0 (Or.inl rfl)

theorem previewStep_char (acc : Direction × Bool × Bool × Size) (t : List Char) :
    previewStep acc t =
      ((dirToken t).getD acc.1,
       acc.2.1 && !(isHiddenToken t),
       acc.2.2.1 || isWrapToken t,
       (sizeToken t).getD acc.2.2.2) := by
  obtain ⟨d, sh, w, sz⟩ := acc
  by_cases ht : t = []
  · subst ht
    simp [previewStep, dirToken, sizeToken, isWrapToken, isHiddenToken]
  · by_cases hdig : (t.headD 'A').isDigit = true
    · simp only [previewStep, dirToken, sizeToken, isWrapToken, isHiddenToken,
        if_neg ht, if_pos hdig]
      simp
    · simp only [previewStep, dirToken, sizeToken, isWrapToken, isHiddenToken,
        if_neg ht, if_neg hdig]
      split_ifs <;> simp_all

theorem preview_fold_spec (l : List (List Char)) (d : Direction) (sh w : Bool) (sz : Size) :
    l.foldl previewStep (d, sh, w, sz) =
      ((l.filterMap dirToken).getLastD d,
       sh && !(l.any isHiddenToken),
       w || l.any isWrapToken,
       (l.filterMap sizeToken).getLastD sz) := by
  induction l generalizing d sh w sz with
  | nil => simp
  | cons t rest ih =>
    simp only [List.foldl_cons, previewStep_char]
    rw [ih]
    cases hdt : dirToken t <;> cases hst : sizeToken t <;>
      simp only [hdt, hst, Option.getD_some, Option.getD_none, List.filterMap_cons,
        List.getLastD_cons, List.any_cons, Bool.and_assoc, Bool.or_assoc, Bool.not_or,
        and_self]

/-- C9 counterexample: the parse is not order-insensitive as claimed — two
permutations of the same tokens give different panes (the later direction
token wins). -/
theorem claim9_counterexample :
    parse_preview ("up:down".toList) = (Direction.Down, Size.Percent 50, false, true) ∧
    parse_preview ("down:up".toList) = (Direction.Up, Size.Percent 50, false, true) ∧
    parse_preview ("up:down".toList) ≠ parse_preview ("down:up".toList) :=
  ⟨by decide, by decide, by decide⟩

/-- C9 (amended): parsing a preview-window spec splits it on ':' and
interprets tokens independently of their position except that for several
tokens setting the same field the last occurrence wins: the direction is
the last UP/DOWN/LEFT/RIGHT keyword (case-insensitive, default `Right`),
the size is the last digit-leading token under `margin_string_to_size`
(default 50 percent), wrapping is on iff some token is WRAP, and the pane
is shown iff no token is HIDDEN — in particular the empty spec yields
exactly (Right, Percent 50, no-wrap, shown). -/
theorem claim9_amended (s : List Char) :
    parse_preview s =
      (((s.splitOn ':').filterMap dirToken).getLastD Direction.Right,
       ((s.splitOn ':').filterMap sizeToken).getLastD (Size.Percent 50),
       (s.splitOn ':').any isWrapToken,
       !((s.splitOn ':').any isHiddenToken)) := by
  simp [parse_preview, preview_fold_spec]

end Skim
